import Mathlib

/-!
# Verification of the trilateration_node localization core

A shallow embedding, in Lean 4, of the localization core of the
`trilateration_node` repository:

* `uwb_localizer/input_adapters.py` — the `CircularBuffer` ring buffer used by
  the serial stream framer, and the `Message` frame decoder;
* `uwb_localizer/core.py` — `solve_position` (closed-form 3-anchor
  trilateration), `multilateration` (entry validation around the external
  least-squares solver), the calibration polynomials and the
  `LocalizationEngine`;
* `main.py` — the per-cycle calibration/range filtering performed by
  `UWBLocalizerApp._on_distance_update` before the engine is invoked.

Bytes are modelled as natural numbers, byte strings as `List ℕ`, Python
dictionaries as association lists (Python dicts preserve insertion order, and
the properties proved here depend only on entry order, counts and lookups),
and real-valued distances as rationals.  The external `localization` library
call hidden inside `multilateration` is modelled as an explicit function
parameter (`SolveFn`): every theorem about the surrounding code is proved for
an arbitrary solver, so nothing is assumed about the library's numerics or
about the Python class of an exception it may raise.
-/

set_option autoImplicit false

namespace TrilaterationNode

/-! ## Stream framer: `CircularBuffer` (input_adapters.py, lines 294-324) -/

/-- `bytes.split(b'\xff\xff\xff\x00')` specialised to the 4-byte delimiter
used in `CircularBuffer.append`: leftmost non-overlapping occurrences split
the chunk, empty spans between adjacent delimiters are kept (and filtered out
later by `append`, exactly as in the Python code). -/
def splitDelim : List ℕ → List ℕ → List (List ℕ)
  | 255 :: 255 :: 255 :: 0 :: rest, acc => acc.reverse :: splitDelim rest []
  | a :: rest, acc => splitDelim rest (a :: acc)
  | [], acc => [acc.reverse]

/-- The state of `CircularBuffer`: a fixed list of slots plus head/tail/size
counters, mirroring the Python attributes field for field. -/
structure CircularBuffer where
  buffer : List (List ℕ)
  head : ℕ
  size : ℕ
  tail : ℕ
  element_size : ℕ
  deriving DecidableEq, Repr

namespace CircularBuffer

/-- `CircularBuffer.__init__`: `size` zero-filled slots (`b'\x00'` is the
one-byte string `[0]`), all counters zero. -/
def mkBuf (n : ℕ) (es : ℕ) : CircularBuffer :=
  { buffer := List.replicate n [0], head := 0, size := 0, tail := 0, element_size := es }

/-- The body of the `for item in items` loop of `CircularBuffer.append`:
skip empty spans, skip spans longer than `element_size`, otherwise store the
span at `head`, advance `head` modulo the slot count and increment `size`
(the cap to the slot count happens after the whole loop, in `append`). -/
def appendOne (b : CircularBuffer) (item : List ℕ) : CircularBuffer :=
  if item.length = 0 then b
  else if b.element_size < item.length then b
  else { b with
          buffer := b.buffer.set b.head item,
          head := (b.head + 1) % b.buffer.length,
          size := b.size + 1 }

/-- `CircularBuffer.append`: `None` is ignored, the chunk is split on the
delimiter, every span is processed by the loop body, and finally `size` is
capped at the slot count. -/
def append (b : CircularBuffer) (item : Option (List ℕ)) : CircularBuffer :=
  match item with
  | none => b
  | some it =>
      let b' := (splitDelim it []).foldl appendOne b
      if b'.buffer.length < b'.size then { b' with size := b'.buffer.length } else b'

/-- `CircularBuffer.pop`: `None` when empty, otherwise the slot at `tail`;
`tail` advances modulo the slot count and `size` decreases. -/
def pop (b : CircularBuffer) : Option (List ℕ) × CircularBuffer :=
  if b.size = 0 then (none, b)
  else (some (b.buffer.getD b.tail []),
        { b with tail := (b.tail + 1) % b.buffer.length, size := b.size - 1 })

/-- Observation function: the logical contents of the buffer, oldest first —
the `size` slots starting at `tail` (modulo the slot count). -/
def contents (b : CircularBuffer) : List (List ℕ) :=
  (List.range b.size).map (fun i => b.buffer.getD ((b.tail + i) % b.buffer.length) [])

/-- Repeated `pop` with explicit fuel (the fuel used is always `b.size`). -/
def drainAux : ℕ → CircularBuffer → List (List ℕ)
  | 0, _ => []
  | n + 1, b =>
      match b.pop with
      | (none, _) => []
      | (some x, b') => x :: drainAux n b'

/-- `pop` until the buffer reports empty, collecting the popped spans in
order — the consumer loop of `SerialInputAdapter._read_loop`. -/
def drain (b : CircularBuffer) : List (List ℕ) := drainAux b.size b

end CircularBuffer

/-! ## Frame decoding: `Message` (input_adapters.py, lines 285-291) -/

/-- Decode failure for a popped span (`struct.error` in Python; the spec's
`MalformedFrame`). -/
inductive DecodeErr where
  | malformedFrame
  deriving DecidableEq, Repr

/-- A decoded frame: `struct.unpack('<BI', data)` yields a `u8` id and a
little-endian `u32` distance in millimeters. -/
structure Msg where
  id : ℕ
  data : ℕ
  deriving DecidableEq, Repr

/-- `Message.__init__`: `struct.unpack('<BI', data)` requires exactly
5 bytes (1 for the id, 4 for the little-endian `u32`) and raises a decode
failure on any other length. -/
def Message.decode (s : List ℕ) : Except DecodeErr Msg :=
  if s.length = 5 then
    Except.ok { id := s.getD 0 0,
                data := s.getD 1 0 + 256 * s.getD 2 0 + 65536 * s.getD 3 0
                          + 16777216 * s.getD 4 0 }
  else
    Except.error DecodeErr.malformedFrame

/-! ## Position solver (core.py) -/

/-- A position estimate `(x, y, z)`. -/
abbrev Point := ℚ × ℚ × ℚ

/-- The `ValueError` raised by `solve_position` when `L2 <= 0 or L3 <= 0`
(the spec's `GeometryError`). -/
inductive TriError where
  | geometryError
  deriving DecidableEq, Repr

/-- `solve_position` (core.py, lines 9-29).  The returned quadruple
`(x, y, s, z2)` represents the Python result `(x, y, z)` with
`z = s * sqrt z2`: the square root is the only irrational step of the Python
function, so it is kept symbolic (`z2` is the already-clamped square of `z`
and `s ∈ {1, -1}` its sign factor, `1 if z_sign >= 0 else -1`) and the rest
of the arithmetic stays in `ℚ`. -/
def solve_position (d1 d2 d3 : ℚ) (z_sign : ℤ) (L2 L3 : ℚ) :
    Except TriError (ℚ × ℚ × ℤ × ℚ) :=
  if L2 ≤ 0 ∨ L3 ≤ 0 then Except.error TriError.geometryError
  else
    let x := (L2 * L2 + d1 * d1 - d2 * d2) / (2 * L2)
    let y := (L3 * L3 + d1 * d1 - d3 * d3) / (2 * L3)
    let z2 := d1 * d1 - x * x - y * y
    Except.ok (x, y, if 0 ≤ z_sign then 1 else -1, if z2 < 0 then 0 else z2)

/-- `calibrated_linear` (core.py): `k * x + b`. -/
def calibrated_linear (k b x : ℚ) : ℚ := k * x + b

/-- `calibrated_quadratic` (core.py): `a * x^2 + b * x + c`. -/
def calibrated_quadratic (a b c x : ℚ) : ℚ := a * x ^ 2 + b * x + c

/-- `calibrated_cubic` (core.py): `a * x^3 + b * x^2 + c * x + d`. -/
def calibrated_cubic (a b c d x : ℚ) : ℚ := a * x ^ 3 + b * x ^ 2 + c * x + d

/-- The Python class of a raised exception, as seen by an `except` clause:
`valueError` for `ValueError` (the class of every error `multilateration`
raises itself, and of the spec's `GeometryError`), `otherError` for an
exception of any other class. -/
inductive PyErr where
  | valueError
  | otherError
  deriving DecidableEq, Repr

/-- The failures observable from `multilateration`: the three `ValueError`s
it raises itself — "Not enough data" (`insufficientData`), "Not enough
anchor positions" (`insufficientAnchors`), "Not enough common anchors"
(`noCommonAnchors`) — and `solveFailure er`, an exception of class `er`
propagating uncaught out of the external `P.solve()` call
(`multilateration` wraps nothing in a `try`). -/
inductive MultilatError where
  | insufficientData
  | insufficientAnchors
  | noCommonAnchors
  | solveFailure (er : PyErr)
  deriving DecidableEq, Repr

/-- The Python exception class of each `multilateration` failure: its own
raises are `ValueError`s; a propagating solve exception keeps its class. -/
def MultilatError.toPy : MultilatError → PyErr
  | MultilatError.insufficientData => PyErr.valueError
  | MultilatError.insufficientAnchors => PyErr.valueError
  | MultilatError.noCommonAnchors => PyErr.valueError
  | MultilatError.solveFailure er => er

/-- The external `localization` library call (`P.solve()` with the anchors
and measures added in `multilateration`), abstracted as a function from the
list of `(anchor id, anchor position, measured distance)` triples to a
position or a raised exception carrying its Python class: the library's
documented failure mode is the spec's `GeometryError` (a `ValueError`), but
nothing constrains it to that class, so a solver may also raise a
non-`ValueError` exception.  Every theorem below holds for an arbitrary
`SolveFn`. -/
abbrev SolveFn := List (ℤ × Point × ℚ) → Except PyErr Point

/-- First-match association-list lookup — Python dict indexing `d[k]`
(dict keys are unique, so the first match is the only one). -/
def dlook {α : Type} (i : ℤ) : List (ℤ × α) → Option α
  | [] => none
  | (j, v) :: t => if j = i then some v else dlook i t

/-- `dlook` with a default, for total modelling of `d[k]` at keys that are
known (in context) to be present. -/
def dlookD {α : Type} (l : List (ℤ × α)) (i : ℤ) (d : α) : α :=
  (dlook i l).getD d

/-- The `non_zero_data` dict built by `multilateration` (core.py, lines
59-63): every entry whose value `is not None`, with its value unwrapped —
despite the name, a value of `0.0` is kept. -/
def nonZeroData (raw : List (ℤ × Option ℚ)) : List (ℤ × ℚ) :=
  raw.filterMap (fun p => p.2.map (fun v => (p.1, v)))

/-- `matched_ids = list(set(non_zero_data) & set(anchor_positions))`
(core.py, line 71): the distinct ids common to both key sets. -/
def matchedIds (nz : List (ℤ × ℚ)) (anchors : List (ℤ × Point)) : List ℤ :=
  ((nz.map Prod.fst).filter (fun i => decide (i ∈ anchors.map Prod.fst))).dedup

/-- The `(anchor id, anchor position, measure)` triples handed to the
external solver by the two `for anchor_id in matched_ids` loops of
`multilateration` (core.py, lines 75-80). -/
def solveInput (raw : List (ℤ × Option ℚ)) (anchors : List (ℤ × Point)) :
    List (ℤ × Point × ℚ) :=
  (matchedIds (nonZeroData raw) anchors).map
    (fun j => (j, dlookD anchors j (0, 0, 0), dlookD (nonZeroData raw) j 0))

/-- `multilateration` (core.py, lines 47-87): filter out absent samples,
run the three entry checks in the code's order (data, then anchor table,
then common ids), invoke the external solve on the matched triples — an
exception it raises propagates uncaught, keeping its class — and
post-process `z` (`t.loc.z = abs(t.loc.z) * z_sign` when `z_sign != 0`). -/
def multilateration (solve : SolveFn) (raw : List (ℤ × Option ℚ))
    (anchors : List (ℤ × Point)) (z_sign : ℤ) : Except MultilatError Point :=
  let non_zero := nonZeroData raw
  if non_zero.length < 3 then Except.error MultilatError.insufficientData
  else if anchors.length < 3 then Except.error MultilatError.insufficientAnchors
  else if (matchedIds non_zero anchors).length < 3 then
    Except.error MultilatError.noCommonAnchors
  else
    match solve (solveInput raw anchors) with
    | Except.error er => Except.error (MultilatError.solveFailure er)
    | Except.ok (x, y, z) =>
        Except.ok (x, y, if z_sign ≠ 0 then |z| * (z_sign : ℚ) else z)

/-! ## Localization engine (core.py, lines 90-161; main.py, lines 195-208) -/

/-- The immutable configuration stored by `LocalizationEngine.__init__`. -/
structure LocalizationEngine where
  anchor_positions : List (ℤ × Point)
  calibration_type : String
  calibration_params : List ℚ
  z_sign : ℤ
  min_range : ℚ
  max_range : ℚ
  deriving DecidableEq, Repr

/-- The `ValueError` raised by `LocalizationEngine.__init__` ("At least 3
anchor positions are required for trilateration"). -/
inductive EngineError where
  | insufficientAnchors
  deriving DecidableEq, Repr

/-- The `ValueError`s raised inside `LocalizationEngine.calibrate` when the
parameter count does not match the selected variant's arity. -/
inductive CalibError where
  | arityMismatch
  deriving DecidableEq, Repr

namespace LocalizationEngine

/-- `LocalizationEngine.__init__`: store the configuration
(`calibration_params or []` maps the absent parameter list to `[]`; a
supplied empty list is also `[]`, so `Option.getD` is an exact model) and
validate only that the anchor table has at least 3 entries. -/
def init (anchors : List (ℤ × Point)) (calibration_type : String)
    (calibration_params : Option (List ℚ)) (z_sign : ℤ)
    (min_range max_range : ℚ) : Except EngineError LocalizationEngine :=
  if anchors.length < 3 then Except.error EngineError.insufficientAnchors
  else Except.ok
    { anchor_positions := anchors,
      calibration_type := calibration_type,
      calibration_params := calibration_params.getD [],
      z_sign := z_sign,
      min_range := min_range,
      max_range := max_range }

/-- `LocalizationEngine.calibrate` (core.py, lines 120-135): dispatch on the
calibration type string; each recognised variant first checks the parameter
count at call time and raises on a mismatch; any other string falls through
to the identity. -/
def calibrate (e : LocalizationEngine) (raw_distance : ℚ) : Except CalibError ℚ :=
  if e.calibration_type = "linear" then
    if e.calibration_params.length ≠ 2 then Except.error CalibError.arityMismatch
    else Except.ok (calibrated_linear (e.calibration_params.getD 0 0)
      (e.calibration_params.getD 1 0) raw_distance)
  else if e.calibration_type = "quadratic" then
    if e.calibration_params.length ≠ 3 then Except.error CalibError.arityMismatch
    else Except.ok (calibrated_quadratic (e.calibration_params.getD 0 0)
      (e.calibration_params.getD 1 0) (e.calibration_params.getD 2 0) raw_distance)
  else if e.calibration_type = "cubic" then
    if e.calibration_params.length ≠ 4 then Except.error CalibError.arityMismatch
    else Except.ok (calibrated_cubic (e.calibration_params.getD 0 0)
      (e.calibration_params.getD 1 0) (e.calibration_params.getD 2 0)
      (e.calibration_params.getD 3 0) raw_distance)
  else Except.ok raw_distance

/-- `LocalizationEngine.validate_range`: `min_range <= d <= max_range`,
inclusive at both ends. -/
def validate_range (e : LocalizationEngine) (distance : ℚ) : Bool :=
  decide (e.min_range ≤ distance ∧ distance ≤ e.max_range)

/-- The `valid_distances` dict built by `calculate_position` (core.py,
lines 149-152): entries whose value is present and within range. -/
def validDistances (e : LocalizationEngine) (distances : List (ℤ × Option ℚ)) :
    List (ℤ × ℚ) :=
  distances.filterMap (fun p =>
    match p.2 with
    | none => none
    | some d => if e.validate_range d then some (p.1, d) else none)

/-- `LocalizationEngine.calculate_position` (core.py, lines 141-161): filter
to `valid_distances`, return `None` when fewer than 3 survive, otherwise run
`multilateration` under `try ... except ValueError: return None` — a failure
whose class is `ValueError` (every error the solver path documents) yields
`None`, while an exception of any other class arising inside the solve is
not caught and propagates to the caller. -/
def calculate_position (solve : SolveFn) (e : LocalizationEngine)
    (distances : List (ℤ × Option ℚ)) : Except PyErr (Option Point) :=
  if (validDistances e distances).length < 3 then Except.ok none
  else
    match multilateration solve
        ((validDistances e distances).map (fun p => (p.1, some p.2)))
        e.anchor_positions e.z_sign with
    | Except.ok position => Except.ok (some position)
    | Except.error er =>
        match er.toPy with
        | PyErr.valueError => Except.ok none
        | PyErr.otherError => Except.error PyErr.otherError

end LocalizationEngine

/-- The per-cycle calibration + range filter performed by the caller
(`UWBLocalizerApp._on_distance_update`, main.py, lines 200-205): each raw
distance is calibrated (a calibration failure propagates) and kept only if
it passes `validate_range`.  The result is the `calibrated_distances` map
handed to `calculate_position`. -/
def calibrateCycle (e : LocalizationEngine) :
    List (ℤ × ℚ) → Except CalibError (List (ℤ × ℚ))
  | [] => Except.ok []
  | (i, raw) :: t =>
      match e.calibrate raw with
      | Except.error er => Except.error er
      | Except.ok c =>
          match calibrateCycle e t with
          | Except.error er => Except.error er
          | Except.ok rest =>
              if e.validate_range c then Except.ok ((i, c) :: rest)
              else Except.ok rest

/-! ## Concrete configurations used to instantiate the theorems -/

/-- The anchor layout used throughout the repository's tests and default
configuration: `{1: (0,0,0), 2: (3,0,0), 3: (0,3,0)}`. -/
def anchors3 : List (ℤ × Point) := [(1, (0, 0, 0)), (2, (3, 0, 0)), (3, (0, 3, 0))]

/-- The ring buffer constructed by `SerialInputAdapter.__init__`
(input_adapters.py, line 44): `CircularBuffer(100, element_size=7)`. -/
def serialBuffer : CircularBuffer := CircularBuffer.mkBuf 100 7

/-- A concrete engine: the test fixture of `test_core.py`
(`calibration_type='none'`, `z_sign=0`, range `[0, 100]`). -/
def engine0 : LocalizationEngine :=
  { anchor_positions := anchors3, calibration_type := "none",
    calibration_params := [], z_sign := 0, min_range := 0, max_range := 100 }

/-- A solver instance that always fails with a `ValueError` (the spec's
`GeometryError`), used to instantiate theorems that hold for every
`SolveFn`. -/
def solveFail : SolveFn := fun _ => Except.error PyErr.valueError

/-- A solver instance that always raises an exception that is not a
`ValueError` (e.g. a numerical-library error). -/
def solveRaises : SolveFn := fun _ => Except.error PyErr.otherError

/-- A concrete buffer state: a malformed 2-byte span at the read position
followed by one well-formed 5-byte frame. -/
def bufW : CircularBuffer :=
  { buffer := [[9, 9], [1, 136, 19, 0, 0]], head := 0, size := 2, tail := 0,
    element_size := 7 }

/-- A concrete measurement cycle containing a distance sample of exactly
`0.0` for anchor 1. -/
def raw0 : List (ℤ × Option ℚ) := [(1, some 0), (2, some 1), (3, some 2)]

/-- The arity each recognised calibration variant demands in
`LocalizationEngine.calibrate` (`none` for strings with no arity check). -/
def variantArity (ct : String) : Option ℕ :=
  if ct = "linear" then some 2
  else if ct = "quadratic" then some 3
  else if ct = "cubic" then some 4
  else none

/-! ## Claim theorems -/

/-- C1: on a capacity-3 ring buffer, appending the four single-byte chunks
"1","2","3","4" (`[49]`, `[50]`, `[51]`, `[52]`) keeps `size` at 3, but the
three subsequent pops return "4","2","3" — the overwrite stores the newest
item in the slot that `tail` still points at, so pops are NOT oldest-first.
This contradicts both the spec's testable property and the repository's own
test `test_buffer_wrap_around` (test_input_adapters.py, lines 46-60), which
expects "2","3","4". -/
theorem ringbuffer_overflow_pops_newest_first :
    (((((CircularBuffer.mkBuf 3 5).append (some [49])).append
        (some [50])).append (some [51])).append (some [52])).size = 3 ∧
    ((((((CircularBuffer.mkBuf 3 5).append (some [49])).append
        (some [50])).append (some [51])).append (some [52])).pop.1,
     ((((((CircularBuffer.mkBuf 3 5).append (some [49])).append
        (some [50])).append (some [51])).append (some [52])).pop.2).pop.1,
     (((((((CircularBuffer.mkBuf 3 5).append (some [49])).append
        (some [50])).append (some [51])).append (some [52])).pop.2).pop.2).pop.1)
      = (some [52], some [50], some [51]) := by
  decide

/-- C3: `multilateration` runs the `non_zero_data` count check before the
anchor-table count check: on an input with 2 non-absent samples AND only 2
anchor positions (the exact input of the repository's failing test
`test_multilateration_insufficient_anchors`, test_core.py lines 90-103) the
reported error is `insufficientData` ("Not enough data"), not the
`insufficientAnchors` the claim — and the repository's own test — expect,
for every solver. -/
theorem multilateration_checks_data_before_anchors (solve : SolveFn) :
    multilateration solve [(1, some 1), (2, some 2)]
      [(1, (0, 0, 0)), (2, (3, 0, 0))] 0
      = Except.error MultilatError.insufficientData := rfl

/-- C5 counterexample: the serial adapter's ring buffer is constructed with
`element_size = 7`, so appending a chunk consisting of a single 6-byte span
(longer than the 5-byte frame size) does NOT leave the poppable contents
unchanged: the span is stored and is returned by the next pop. -/
theorem serial_buffer_stores_six_byte_span :
    (serialBuffer.append (some [1, 2, 3, 4, 5, 6])).size = 1 ∧
    (serialBuffer.append (some [1, 2, 3, 4, 5, 6])).pop.1
      = some [1, 2, 3, 4, 5, 6] := by
  decide

/-- C5 (amended): the per-span loop body of `append` drops a span exactly
when it is longer than the buffer's configured `element_size` (and skips
empty spans); any non-empty span of at most `element_size` bytes is stored
at `head`.  The serial adapter configures `element_size = 7`, not the 5-byte
frame size, so 6- and 7-byte spans are stored and only longer ones are
dropped. -/
theorem append_drops_only_oversized_spans (b : CircularBuffer) (s : List ℕ) :
    (b.element_size < s.length → b.appendOne s = b) ∧
    (s.length ≠ 0 → s.length ≤ b.element_size →
      b.appendOne s
        = { b with buffer := b.buffer.set b.head s,
                   head := (b.head + 1) % b.buffer.length,
                   size := b.size + 1 }) ∧
    serialBuffer.element_size = 7 := by
  refine ⟨?_, ?_, rfl⟩
  · intro h
    have h0 : ¬s.length = 0 := by omega
    simp only [CircularBuffer.appendOne, if_neg h0, if_pos h]
  · intro h0 h1
    simp only [CircularBuffer.appendOne]
    rw [if_neg h0, if_neg (not_lt.2 h1)]

/-- Witness for `append_drops_only_oversized_spans` at the serial adapter's
buffer: an 8-byte span is dropped, a 6-byte span is stored. -/
theorem append_drops_only_oversized_spans_witness :
    serialBuffer.appendOne [1, 2, 3, 4, 5, 6, 7, 8] = serialBuffer ∧
    (serialBuffer.appendOne [1, 2, 3, 4, 5, 6]).size = 1 := by
  constructor
  · exact (append_drops_only_oversized_spans serialBuffer
      [1, 2, 3, 4, 5, 6, 7, 8]).1 (by decide)
  · rw [(append_drops_only_oversized_spans serialBuffer
      [1, 2, 3, 4, 5, 6]).2.1 (by decide) (by decide)]
    rfl

/-- C2: for positive `L2`, `L3` the closed-form solve returns exactly
`x = (L2² + d1² − d2²)/(2·L2)`, `y = (L3² + d1² − d3²)/(2·L3)`, the sign
factor `+1` when the z-sign policy is upper (`z_sign ≥ 0`) and `-1` when
lower, and the clamped square `max 0 (d1² − x² − y²)` (so `z = sign·√(max 0
(d1² − x² − y²))`), with no failure raised; and when `L2 ≤ 0` or `L3 ≤ 0`
it fails with the geometry error. -/
theorem solve_position_closed_form (d1 d2 d3 : ℚ) (z_sign : ℤ) (L2 L3 : ℚ) :
    (0 < L2 → 0 < L3 →
      solve_position d1 d2 d3 z_sign L2 L3
        = Except.ok ((L2 * L2 + d1 * d1 - d2 * d2) / (2 * L2),
                     (L3 * L3 + d1 * d1 - d3 * d3) / (2 * L3),
                     if 0 ≤ z_sign then 1 else -1,
                     max 0 (d1 * d1
                       - ((L2 * L2 + d1 * d1 - d2 * d2) / (2 * L2))
                           * ((L2 * L2 + d1 * d1 - d2 * d2) / (2 * L2))
                       - ((L3 * L3 + d1 * d1 - d3 * d3) / (2 * L3))
                           * ((L3 * L3 + d1 * d1 - d3 * d3) / (2 * L3))))) ∧
    (L2 ≤ 0 ∨ L3 ≤ 0 →
      solve_position d1 d2 d3 z_sign L2 L3 = Except.error TriError.geometryError) := by
  constructor
  · intro h2 h3
    have hneg : ¬(L2 ≤ 0 ∨ L3 ≤ 0) := by
      push_neg
      exact ⟨h2, h3⟩
    simp only [solve_position, if_neg hneg]
    congr 1
    set z2 := d1 * d1
      - (L2 * L2 + d1 * d1 - d2 * d2) / (2 * L2)
          * ((L2 * L2 + d1 * d1 - d2 * d2) / (2 * L2))
      - (L3 * L3 + d1 * d1 - d3 * d3) / (2 * L3)
          * ((L3 * L3 + d1 * d1 - d3 * d3) / (2 * L3)) with hz2
    rcases lt_or_le z2 0 with h | h
    · simp [if_pos h, max_eq_left h.le]
    · simp [if_neg (not_lt.2 h), max_eq_right h]
  · intro h
    simp only [solve_position, if_pos h]

/-- Witness for `solve_position_closed_form`: at `d1 = d2 = d3 = 2`,
`z_sign = 1`, `L2 = L3 = 2` the solve returns `(1, 1, +1, 2)`, i.e.
`z = +√2`. -/
theorem solve_position_closed_form_witness :
    solve_position 2 2 2 1 2 2 = Except.ok (1, 1, 1, 2) := by
  have h := (solve_position_closed_form 2 2 2 1 2 2).1 (by norm_num) (by norm_num)
  rw [h]
  norm_num

/-- C9: for every calibration-type string other than "linear", "quadratic"
and "cubic" — not only the documented "none" — `calibrate` falls through to
the identity branch and returns the raw distance unchanged, whatever the
parameter list holds. -/
theorem calibrate_unknown_type_identity (anchors : List (ℤ × Point))
    (ct : String) (params : List ℚ) (zs : ℤ) (mn mx raw : ℚ) :
    ct ≠ "linear" → ct ≠ "quadratic" → ct ≠ "cubic" →
    LocalizationEngine.calibrate
      { anchor_positions := anchors, calibration_type := ct,
        calibration_params := params, z_sign := zs,
        min_range := mn, max_range := mx } raw = Except.ok raw := by
  intro h1 h2 h3
  simp [LocalizationEngine.calibrate, h1, h2, h3]

/-- Witness for `calibrate_unknown_type_identity`: an engine whose
calibration type is the unrecognised string "foo" with a non-empty parameter
list still returns the raw distance unchanged. -/
theorem calibrate_unknown_type_identity_witness :
    LocalizationEngine.calibrate
      { anchor_positions := anchors3, calibration_type := "foo",
        calibration_params := [1, 2, 3], z_sign := 0,
        min_range := 0, max_range := 100 } 5 = Except.ok 5 :=
  calibrate_unknown_type_identity anchors3 "foo" [1, 2, 3] 0 0 100 5
    (by decide) (by decide) (by decide)

/-- C4 counterexample: an engine with `calibration_type='linear'` and an
empty parameter list is constructed successfully (only the anchor count is
validated at construction), and its `calibrate` then fails at call time —
refuting both halves of the claim at one concrete input. -/
theorem calibrate_arity_not_checked_at_construction :
    LocalizationEngine.init anchors3 "linear" (some []) 0 0 100
      = Except.ok { anchor_positions := anchors3, calibration_type := "linear",
                    calibration_params := [], z_sign := 0,
                    min_range := 0, max_range := 100 } ∧
    LocalizationEngine.calibrate
      { anchor_positions := anchors3, calibration_type := "linear",
        calibration_params := [], z_sign := 0,
        min_range := 0, max_range := 100 } 1
      = Except.error CalibError.arityMismatch := by
  constructor <;> rfl

/-- C4 (amended): parameter arity is validated per call inside `calibrate`,
not at construction.  For every recognised variant whose arity does not
match the supplied parameter count, construction (with ≥ 3 anchors)
succeeds and every subsequent `calibrate` call fails with the arity
error. -/
theorem calibrate_arity_checked_per_call (anchors : List (ℤ × Point))
    (ct : String) (params : List ℚ) (zs : ℤ) (mn mx : ℚ) (n : ℕ) :
    3 ≤ anchors.length → variantArity ct = some n → params.length ≠ n →
    LocalizationEngine.init anchors ct (some params) zs mn mx
      = Except.ok { anchor_positions := anchors, calibration_type := ct,
                    calibration_params := params, z_sign := zs,
                    min_range := mn, max_range := mx } ∧
    ∀ raw : ℚ, LocalizationEngine.calibrate
      { anchor_positions := anchors, calibration_type := ct,
        calibration_params := params, z_sign := zs,
        min_range := mn, max_range := mx } raw
      = Except.error CalibError.arityMismatch := by
  intro hlen hvar hpar
  constructor
  · simp only [LocalizationEngine.init, if_neg (Nat.not_lt.mpr hlen),
      Option.getD_some]
  · intro raw
    by_cases h1 : ct = "linear"
    · have hn : n = 2 := by simp [variantArity, h1] at hvar; omega
      rw [hn] at hpar
      simp [LocalizationEngine.calibrate, h1, hpar]
    · by_cases h2 : ct = "quadratic"
      · have hn : n = 3 := by simp [variantArity, h1, h2] at hvar; omega
        rw [hn] at hpar
        simp [LocalizationEngine.calibrate, h1, h2, hpar]
      · by_cases h3 : ct = "cubic"
        · have hn : n = 4 := by simp [variantArity, h1, h2, h3] at hvar; omega
          rw [hn] at hpar
          simp [LocalizationEngine.calibrate, h1, h2, h3, hpar]
        · exact absurd hvar (by simp [variantArity, h1, h2, h3])

/-- Witness for `calibrate_arity_checked_per_call`: the linear variant
(arity 2) with an empty parameter list — construction succeeds, the call
fails. -/
theorem calibrate_arity_checked_per_call_witness :
    LocalizationEngine.init anchors3 "linear" (some []) 0 0 100
      = Except.ok { anchor_positions := anchors3, calibration_type := "linear",
                    calibration_params := [], z_sign := 0,
                    min_range := 0, max_range := 100 } ∧
    LocalizationEngine.calibrate
      { anchor_positions := anchors3, calibration_type := "linear",
        calibration_params := [], z_sign := 0,
        min_range := 0, max_range := 100 } 5
      = Except.error CalibError.arityMismatch := by
  have h := calibrate_arity_checked_per_call anchors3 "linear" [] 0 0 100 2
    (by decide) (by decide) (by decide)
  exact ⟨h.1, h.2 5⟩

/-- C6 counterexample: `calculate_position` wraps the solve in
`try ... except ValueError` only, so a solver failure that is not a
`ValueError` escapes.  Concretely: the default engine, a cycle with three
valid samples (so the solver IS reached), and a solver raising a
non-`ValueError` exception — the exception propagates out of
`calculate_position` instead of being turned into `None`, refuting the
claim's "including any exception arising inside the solve". -/
theorem solver_exception_escapes_calculate_position :
    LocalizationEngine.calculate_position solveRaises engine0
      [(1, some 1), (2, some 1), (3, some 1)]
      = Except.error PyErr.otherError := rfl

/-- C6 (amended): every `ValueError` failure of the solver path — the three
entry-validation errors and any `ValueError` raised inside the solve — is
caught by `calculate_position` and yields `None` rather than propagating;
but an exception of any other class arising inside the solve is not caught
and propagates out of `calculate_position` (shown whenever the solver is
actually reached, i.e. at least 3 entries survive the filter). -/
theorem valueerror_failures_yield_none (solve : SolveFn)
    (e : LocalizationEngine) (d : List (ℤ × Option ℚ)) (err : MultilatError) :
    multilateration solve
      ((LocalizationEngine.validDistances e d).map (fun p => (p.1, some p.2)))
      e.anchor_positions e.z_sign = Except.error err →
    (err.toPy = PyErr.valueError →
      LocalizationEngine.calculate_position solve e d = Except.ok none) ∧
    (err.toPy = PyErr.otherError →
      3 ≤ (LocalizationEngine.validDistances e d).length →
      LocalizationEngine.calculate_position solve e d
        = Except.error PyErr.otherError) := by
  intro h
  constructor
  · intro hv
    unfold LocalizationEngine.calculate_position
    split_ifs with hlen
    · rfl
    · simp only [h, hv]
  · intro ho hlen
    unfold LocalizationEngine.calculate_position
    rw [if_neg (by omega)]
    simp only [h, ho]

/-- Witness for `valueerror_failures_yield_none`: the same three-sample
cycle reaching the solver twice — a `ValueError`-raising solver is swallowed
into `None`, a solver raising another exception class escapes. -/
theorem valueerror_failures_yield_none_witness :
    LocalizationEngine.calculate_position solveFail engine0
      [(1, some 1), (2, some 1), (3, some 1)] = Except.ok none ∧
    LocalizationEngine.calculate_position solveRaises engine0
      [(1, some 1), (2, some 1), (3, some 1)]
      = Except.error PyErr.otherError := by
  constructor
  · exact (valueerror_failures_yield_none solveFail engine0
      [(1, some 1), (2, some 1), (3, some 1)]
      (MultilatError.solveFailure PyErr.valueError) rfl).1 rfl
  · exact (valueerror_failures_yield_none solveRaises engine0
      [(1, some 1), (2, some 1), (3, some 1)]
      (MultilatError.solveFailure PyErr.otherError) rfl).2 rfl (by decide)

/-- Every entry surviving `calibrateCycle` passed the range check. -/
theorem calibrateCycle_valid (e : LocalizationEngine) :
    ∀ raw cal : List (ℤ × ℚ), calibrateCycle e raw = Except.ok cal →
      ∀ p ∈ cal, e.validate_range p.2 = true := by
  intro raw
  induction raw with
  | nil =>
      intro cal h p hp
      simp only [calibrateCycle, Except.ok.injEq] at h
      subst h
      cases hp
  | cons hd tl ih =>
      intro cal h p hp
      rcases hd with ⟨i, r⟩
      simp only [calibrateCycle] at h
      cases hc : e.calibrate r with
      | error er => simp only [hc] at h; cases h
      | ok c =>
          simp only [hc] at h
          cases hrest : calibrateCycle e tl with
          | error er => simp only [hrest] at h; cases h
          | ok rest =>
              simp only [hrest] at h
              by_cases hv : e.validate_range c
              · rw [if_pos hv, Except.ok.injEq] at h
                subst h
                rcases List.mem_cons.mp hp with rfl | hp
                · exact hv
                · exact ih _ hrest p hp
              · rw [if_neg hv, Except.ok.injEq] at h
                subst h
                exact ih _ hrest p hp

/-- `validDistances` keeps every entry of a list whose values all pass the
range check. -/
theorem validDistances_of_valid (e : LocalizationEngine) :
    ∀ l : List (ℤ × ℚ), (∀ p ∈ l, e.validate_range p.2 = true) →
      LocalizationEngine.validDistances e (l.map (fun p => (p.1, some p.2))) = l := by
  intro l
  induction l with
  | nil => intro _; rfl
  | cons hd tl ih =>
      intro h
      rcases hd with ⟨i, v⟩
      have hv : e.validate_range v = true := h (i, v) (List.mem_cons_self _ _)
      simp only [List.map_cons, LocalizationEngine.validDistances,
        List.filterMap_cons, hv, if_true]
      exact congrArg _ (ih fun p hp => h p (List.mem_cons_of_mem _ hp))

/-- C7: whenever the per-cycle calibration + range filter (the caller's
`_on_distance_update` loop) lets fewer than 3 entries through,
`calculate_position` on the surviving map returns `None` (raising
nothing) — for every solver, so the solver is never consulted. -/
theorem too_few_survivors_yield_none (solve : SolveFn) (e : LocalizationEngine)
    (raw cal : List (ℤ × ℚ)) :
    calibrateCycle e raw = Except.ok cal → cal.length < 3 →
    LocalizationEngine.calculate_position solve e
      (cal.map (fun p => (p.1, some p.2))) = Except.ok none := by
  intro hc hlen
  unfold LocalizationEngine.calculate_position
  rw [validDistances_of_valid e cal (calibrateCycle_valid e raw cal hc)]
  rw [if_pos hlen]

/-- Witness for `too_few_survivors_yield_none`: one raw reading survives
calibration and the range check, and the engine reports no fix. -/
theorem too_few_survivors_yield_none_witness :
    LocalizationEngine.calculate_position solveFail engine0 [(1, some 1)]
      = Except.ok none :=
  too_few_survivors_yield_none solveFail engine0 [(1, 1)] [(1, 1)] rfl (by decide)

/-- A successful `pop` returns the span at `tail` and leaves a buffer whose
logical contents are the tail of the old contents. -/
theorem pop_cons (b : CircularBuffer) (ht : b.tail < b.buffer.length)
    (hs : 0 < b.size) :
    b.pop = (some (b.buffer.getD b.tail []),
      { b with tail := (b.tail + 1) % b.buffer.length, size := b.size - 1 }) ∧
    CircularBuffer.contents b
      = b.buffer.getD b.tail []
        :: CircularBuffer.contents
            { b with tail := (b.tail + 1) % b.buffer.length, size := b.size - 1 } := by
  constructor
  · unfold CircularBuffer.pop
    rw [if_neg (by omega : ¬b.size = 0)]
  · obtain ⟨k, hk⟩ : ∃ k, b.size = k + 1 := ⟨b.size - 1, by omega⟩
    unfold CircularBuffer.contents
    simp only [hk, Nat.add_sub_cancel]
    rw [List.range_succ_eq_map, List.map_cons, List.map_map]
    have hfun : (fun i => b.buffer.getD ((b.tail + i) % b.buffer.length) [])
        ∘ Nat.succ
        = fun i => b.buffer.getD
            (((b.tail + 1) % b.buffer.length + i) % b.buffer.length) [] := by
      funext i
      simp only [Function.comp]
      congr 1
      rw [Nat.mod_add_mod]
      congr 1
      omega
    rw [hfun]
    congr 1
    rw [Nat.add_zero, Nat.mod_eq_of_lt ht]

/-- With enough fuel (the buffer's `size` always suffices), repeated `pop`
returns exactly the logical contents, oldest first. -/
theorem drainAux_eq_contents :
    ∀ (n : ℕ) (b : CircularBuffer), b.size ≤ n → b.tail < b.buffer.length →
      CircularBuffer.drainAux n b = CircularBuffer.contents b := by
  intro n
  induction n with
  | zero =>
      intro b hn ht
      have hz : b.size = 0 := by omega
      simp [CircularBuffer.drainAux, CircularBuffer.contents, hz]
  | succ n ih =>
      intro b hn ht
      by_cases hz : b.size = 0
      · simp [CircularBuffer.drainAux, CircularBuffer.pop, hz,
          CircularBuffer.contents]
      · have hs : 0 < b.size := Nat.pos_of_ne_zero hz
        obtain ⟨hpop, hcons⟩ := pop_cons b ht hs
        unfold CircularBuffer.drainAux
        rw [hpop]
        show b.buffer.getD b.tail []
            :: CircularBuffer.drainAux n
                { b with tail := (b.tail + 1) % b.buffer.length,
                         size := b.size - 1 }
          = CircularBuffer.contents b
        have hb' := ih
          { b with tail := (b.tail + 1) % b.buffer.length, size := b.size - 1 }
          (by show b.size - 1 ≤ n; omega)
          (by show (b.tail + 1) % b.buffer.length < b.buffer.length
              exact Nat.mod_lt _ (by omega))
        rw [hb']
        exact hcons.symm

/-- C8: when the span at the read position has length ≠ 5, popping it
succeeds, decoding it reports the malformed-frame error, and the buffer
state is not corrupted: draining the buffer after that pop returns exactly
the remaining enqueued spans, intact and in order. -/
theorem malformed_span_decode_reports_and_preserves
    (b : CircularBuffer) (m : List ℕ) (rest : List (List ℕ)) :
    b.tail < b.buffer.length → CircularBuffer.contents b = m :: rest →
    m.length ≠ 5 →
    b.pop.1 = some m ∧
    Message.decode m = Except.error DecodeErr.malformedFrame ∧
    CircularBuffer.drain b.pop.2 = rest := by
  intro ht hc hm
  have hs : 0 < b.size := by
    by_contra hcon
    have hz : b.size = 0 := by omega
    rw [CircularBuffer.contents, hz] at hc
    cases hc
  obtain ⟨hpop, hcons⟩ := pop_cons b ht hs
  rw [hcons] at hc
  injection hc with h1 h2
  refine ⟨?_, ?_, ?_⟩
  · rw [hpop, h1]
  · simp [Message.decode, hm]
  · rw [hpop]
    unfold CircularBuffer.drain
    rw [drainAux_eq_contents _ _ le_rfl
      (by show (b.tail + 1) % b.buffer.length < b.buffer.length
          exact Nat.mod_lt _ (by omega))]
    exact h2

/-- Witness for `malformed_span_decode_reports_and_preserves`: a buffer
holding a 2-byte span followed by a valid 5-byte frame — the malformed span
is popped and reported, the frame survives untouched. -/
theorem malformed_span_decode_reports_and_preserves_witness :
    bufW.pop.1 = some [9, 9] ∧
    Message.decode [9, 9] = Except.error DecodeErr.malformedFrame ∧
    CircularBuffer.drain bufW.pop.2 = [[1, 136, 19, 0, 0]] :=
  malformed_span_decode_reports_and_preserves bufW [9, 9] [[1, 136, 19, 0, 0]]
    (by decide) (by decide) (by decide)

/-- Membership in `non_zero_data`: exactly the entries whose sample is
present, with its value unwrapped — whatever that value is, zero included. -/
theorem mem_nonZeroData (raw : List (ℤ × Option ℚ)) (i : ℤ) (v : ℚ) :
    (i, v) ∈ nonZeroData raw ↔ (i, some v) ∈ raw := by
  constructor
  · intro h
    rcases List.mem_filterMap.mp h with ⟨⟨a, d⟩, hmem, hf⟩
    cases d with
    | none => cases hf
    | some w =>
        simp only [Option.map_some', Option.some.injEq, Prod.mk.injEq] at hf
        obtain ⟨rfl, rfl⟩ := hf
        exact hmem
  · intro h
    exact List.mem_filterMap.mpr ⟨(i, some v), h, rfl⟩

/-- The keys of `non_zero_data` come from the keys of the raw cycle. -/
theorem keys_nonZeroData_sub (raw : List (ℤ × Option ℚ)) (j : ℤ) :
    j ∈ (nonZeroData raw).map Prod.fst → j ∈ raw.map Prod.fst := by
  intro hj
  rcases List.mem_map.mp hj with ⟨⟨a, v⟩, hmem, rfl⟩
  exact List.mem_map.mpr ⟨(a, some v), (mem_nonZeroData raw a v).mp hmem, rfl⟩

/-- Filtering out absent samples preserves key uniqueness. -/
theorem nodup_keys_nonZeroData (raw : List (ℤ × Option ℚ)) :
    (raw.map Prod.fst).Nodup → ((nonZeroData raw).map Prod.fst).Nodup := by
  induction raw with
  | nil => intro _; simp [nonZeroData]
  | cons hd tl ih =>
      intro h
      rcases hd with ⟨a, d⟩
      simp only [List.map_cons, List.nodup_cons] at h
      cases d with
      | none =>
          have hrw : nonZeroData ((a, none) :: tl) = nonZeroData tl := by
            simp [nonZeroData]
          rw [hrw]
          exact ih h.2
      | some v =>
          have hrw : nonZeroData ((a, some v) :: tl) = (a, v) :: nonZeroData tl := by
            simp [nonZeroData]
          rw [hrw, List.map_cons]
          refine List.nodup_cons.mpr ⟨?_, ih h.2⟩
          intro hmem
          exact h.1 (keys_nonZeroData_sub tl a hmem)

/-- Dictionary lookup returns the stored value when keys are unique. -/
theorem dlook_eq_of_mem_nodup {α : Type} (l : List (ℤ × α)) (i : ℤ) (v : α) :
    (l.map Prod.fst).Nodup → (i, v) ∈ l → dlook i l = some v := by
  induction l with
  | nil => intro _ h; cases h
  | cons hd tl ih =>
      intro hnd hmem
      rcases hd with ⟨j, w⟩
      simp only [List.map_cons, List.nodup_cons] at hnd
      rcases List.mem_cons.mp hmem with heq | hmem'
      · cases heq
        simp [dlook]
      · have hne : j ≠ i := by
          intro hji
          subst hji
          exact hnd.1 (List.mem_map.mpr ⟨(j, v), hmem', rfl⟩)
        simp only [dlook, if_neg hne]
        exact ih hnd.2 hmem'

/-- C10: the per-cycle filter of `multilateration` drops exactly the absent
(`None`) samples: a sample of exactly `0.0` survives into `non_zero_data`,
counts toward the 3-sample minimum (so the data check cannot fire once 3
samples are present, zeros included), and — when keys are unique and the
anchor is known — the zero measure is among the triples handed to the
underlying solve. -/
theorem zero_distance_sample_is_kept (raw : List (ℤ × Option ℚ))
    (anchors : List (ℤ × Point)) (i : ℤ) :
    ((i, (0 : ℚ)) ∈ nonZeroData raw ↔ (i, some (0 : ℚ)) ∈ raw) ∧
    (∀ (solve : SolveFn) (zs : ℤ), 3 ≤ (nonZeroData raw).length →
      multilateration solve raw anchors zs
        ≠ Except.error MultilatError.insufficientData) ∧
    ((raw.map Prod.fst).Nodup → (i, some (0 : ℚ)) ∈ raw →
      i ∈ anchors.map Prod.fst →
      (i, dlookD anchors i (0, 0, 0), (0 : ℚ)) ∈ solveInput raw anchors) := by
  refine ⟨mem_nonZeroData raw i 0, ?_, ?_⟩
  · intro solve zs hlen h
    unfold multilateration at h
    rw [if_neg (by omega)] at h
    by_cases h1 : anchors.length < 3
    · rw [if_pos h1] at h
      exact MultilatError.noConfusion (Except.error.inj h)
    · rw [if_neg h1] at h
      by_cases h2 : (matchedIds (nonZeroData raw) anchors).length < 3
      · rw [if_pos h2] at h
        exact MultilatError.noConfusion (Except.error.inj h)
      · rw [if_neg h2] at h
        cases hsv : solve (solveInput raw anchors) with
        | error er =>
            simp only [hsv] at h
            exact MultilatError.noConfusion (Except.error.inj h)
        | ok p =>
            rcases p with ⟨x, y, z⟩
            simp only [hsv] at h
            cases h
  · intro hnd hmem hanch
    have hnz : (i, (0 : ℚ)) ∈ nonZeroData raw := (mem_nonZeroData raw i 0).mpr hmem
    have hkey : i ∈ (nonZeroData raw).map Prod.fst :=
      List.mem_map.mpr ⟨(i, 0), hnz, rfl⟩
    have hmatched : i ∈ matchedIds (nonZeroData raw) anchors := by
      unfold matchedIds
      rw [List.mem_dedup]
      exact List.mem_filter.mpr ⟨hkey, by simpa using hanch⟩
    have hlook : dlookD (nonZeroData raw) i 0 = 0 := by
      unfold dlookD
      rw [dlook_eq_of_mem_nodup _ i 0 (nodup_keys_nonZeroData raw hnd) hnz]
      rfl
    unfold solveInput
    refine List.mem_map.mpr ⟨i, hmatched, ?_⟩
    rw [hlook]

/-- Witness for `zero_distance_sample_is_kept`: a cycle with samples
`{1: 0.0, 2: 1.0, 3: 2.0}` — the zero sample survives, the data check
passes, and `(1, (0,0,0), 0.0)` reaches the solver. -/
theorem zero_distance_sample_is_kept_witness :
    (1, (0 : ℚ)) ∈ nonZeroData raw0 ∧
    multilateration solveFail raw0 anchors3 0
      ≠ Except.error MultilatError.insufficientData ∧
    (1, ((0 : ℚ), (0 : ℚ), (0 : ℚ)), (0 : ℚ)) ∈ solveInput raw0 anchors3 := by
  have h := zero_distance_sample_is_kept raw0 anchors3 1
  exact ⟨h.1.mpr (by decide), h.2.1 solveFail 0 (by decide),
    h.2.2 (by decide) (by decide) (by decide)⟩

end TrilaterationNode
